import Mathlib

/-!
A shallow embedding of the pagination core of paps (`src/paps/src/paps.c`),
a program that flows a sequence of pre-shaped text lines into a multi-column
PostScript document.

Modelling conventions:
* C `int` values are `ℤ`; C `double` values are `ℚ`; C `(int)` casts of
  doubles truncate toward zero (`cTrunc`).
* Pango (the external shaping library) reports line extents in Pango units
  (1/PANGO_SCALE of a pixel).  Shaped lines are opaque inputs carrying their
  measured extents, exactly what `output_pages` reads from them.
* The external libpaps scale `paps_postscript_points_to_pango(1)` is an input
  parameter (`pts_to_pango` in `Config`); the program only uses it through
  `pt_to_pixel` and `pixel_to_pt`.
* The wall-clock time read by `draw_page_header_line_to_page` via
  `time`/`localtime`/`strftime` is modelled as an explicit input string
  (`date`), since it is an implicit input of the program.
* The PostScript text produced by the drawing helpers is abstracted to the
  placement data the helpers receive and the coordinates they compute
  (`Event`, `draw_line_x_pos`, `draw_line_y_pos`, `eject_column`), which is
  the geometric/structural contract of the output stream.
-/

namespace Paps

/-- Pango's fixed sub-pixel scale (`PANGO_SCALE` = 1024). -/
def PANGO_SCALE : ℤ := 1024

/-- C conversion of a floating-point value to `int`: truncation toward zero. -/
def cTrunc (q : ℚ) : ℤ := if q < 0 then ⌈q⌉ else ⌊q⌋

/-- A Pango rectangle (`PangoRectangle`), in Pango units. -/
structure PRect where
  width : ℤ
  height : ℤ
deriving DecidableEq, Repr

/-- The measured extents of one laid-out line, as returned by the external
`pango_layout_line_get_extents`.  The line handle itself is opaque. -/
structure ShapedLine where
  inkRect : PRect
  logicalRect : PRect
deriving DecidableEq, Repr

/-- A paragraph after external shaping: `struct _Paragraph`'s `formfeed` flag
together with the shaped lines of its `PangoLayout` (the per-line extents the
external shaper produced for it). -/
structure ShapedPara where
  formfeed : Bool
  shapedLines : List ShapedLine
deriving DecidableEq, Repr

/-- `LineLink` of paps.c: one line queued for the flow engine, carrying its
ink and logical extents and the (possibly deferred) form-feed flag. -/
structure LineLink where
  inkRect : PRect
  logicalRect : PRect
  formfeed : Bool
deriving DecidableEq, Repr

/-- `paper_type_t`. -/
inductive PaperType where
  | a4
  | usLetter
  | usLegal
deriving DecidableEq, Repr

/-- `paper_sizes[]`: width and height in PostScript points. -/
def paperSizes : PaperType → ℚ × ℚ
  | PaperType.a4 => (595.28, 841.89)
  | PaperType.usLetter => (612, 792)
  | PaperType.usLegal => (612, 1008)

/-- The configuration `main` gathers from the command line (defaults as in
paps.c), plus the external libpaps scale `paps_postscript_points_to_pango(1)`
which `main` reads from the shaping backend. -/
structure Config where
  paper_type : PaperType
  do_landscape : Bool
  do_rtl : Bool
  do_justify : Bool
  do_draw_header : Bool
  num_columns : ℤ
  top_margin : ℤ
  bottom_margin : ℤ
  left_margin : ℤ
  right_margin : ℤ
  filename : String
  pts_to_pango : ℚ

/-- `page_layout_t` (the fields `main` initialises; `do_draw_header`,
`do_draw_footer` and `do_draw_contour` are never written in the source and
are omitted). `pango_dir` is modelled by the flag `pango_dir_rtl`. -/
structure PageLayout where
  pt_to_pixel : ℚ
  pixel_to_pt : ℚ
  column_width : ℤ
  column_height : ℤ
  num_columns : ℤ
  gutter_width : ℤ
  top_margin : ℤ
  bottom_margin : ℤ
  left_margin : ℤ
  right_margin : ℤ
  page_width : ℤ
  page_height : ℤ
  header_ypos : ℤ
  header_sep : ℤ
  header_height : ℤ
  footer_height : ℤ
  do_duplex : Bool
  do_tumble : Bool
  do_landscape : Bool
  do_justify : Bool
  do_separation_line : Bool
  pango_dir_rtl : Bool
  filename : String
  header_font_desc : String

/-- The page-layout computation of `main` (paps.c lines 283-342).
`gutter_width` is the constant 40 and `header_sep` the constant 20 (neither
has a command-line option); `do_tumble`/`do_duplex` start at -1 and both
branches of the landscape test set them to TRUE.  Note that no geometry
validation of any kind is performed here. -/
def resolveGeometry (c : Config) : PageLayout :=
  let base_width := cTrunc (paperSizes c.paper_type).1
  let base_height := cTrunc (paperSizes c.paper_type).2
  let gutter_width : ℤ := 40
  let total_gutter_width : ℤ :=
    if c.num_columns = 1 then 0 else gutter_width * (c.num_columns - 1)
  let page_width := if c.do_landscape then base_height else base_width
  let page_height := if c.do_landscape then base_width else base_height
  let header_sep : ℤ := if c.do_draw_header then 20 else 0
  let column_height := page_height - c.top_margin - header_sep - c.bottom_margin
  let column_width :=
    (page_width - c.left_margin - c.right_margin - total_gutter_width).tdiv c.num_columns
  let pt_to_pixel := c.pts_to_pango / (PANGO_SCALE : ℚ)
  { pt_to_pixel := pt_to_pixel
    pixel_to_pt := 1 / pt_to_pixel
    column_width := column_width
    column_height := column_height
    num_columns := c.num_columns
    gutter_width := gutter_width
    top_margin := c.top_margin
    bottom_margin := c.bottom_margin
    left_margin := c.left_margin
    right_margin := c.right_margin
    page_width := page_width
    page_height := page_height
    header_ypos := c.top_margin
    header_sep := header_sep
    header_height := 0
    footer_height := 0
    do_duplex := true
    do_tumble := true
    do_landscape := c.do_landscape
    do_justify := c.do_justify
    do_separation_line := true
    pango_dir_rtl := c.do_rtl
    filename := c.filename
    header_font_desc := "Monospace Bold 12" }

/-- ASCII lower-casing of one character, as `g_ascii_strcasecmp` does. -/
def gAsciiLower (c : Char) : Char :=
  if 'A' ≤ c && c ≤ 'Z' then Char.ofNat (c.toNat + 32) else c

/-- Equality under `g_ascii_strcasecmp`. -/
def gAsciiCaseEq (a b : String) : Bool :=
  a.data.map gAsciiLower == b.data.map gAsciiLower

/-- `_paps_arg_paper_cb`: recognise a paper-size name, case-insensitively;
an empty or unrecognised value is a command-line error (`none`). -/
def parsePaper (value : String) : Option PaperType :=
  if value = "" then none
  else if gAsciiCaseEq value "legal" then some PaperType.usLegal
  else if gAsciiCaseEq value "letter" then some PaperType.usLetter
  else if gAsciiCaseEq value "a4" then some PaperType.a4
  else none

/-- The inner loop of `split_paragraphs_into_lines` for one paragraph
(paps.c lines 510-530): one `LineLink` per shaped line, with `formfeed` set
exactly on the paragraph's last line when the paragraph has a form-feed. -/
def paraLines (para : ShapedPara) : List LineLink :=
  para.shapedLines.enum.map fun p =>
    { inkRect := p.2.inkRect
      logicalRect := p.2.logicalRect
      formfeed := para.formfeed && decide (p.1 = para.shapedLines.length - 1) }

/-- `split_paragraphs_into_lines` (paps.c lines 498-537). -/
def split_paragraphs_into_lines (paragraphs : List ShapedPara) : List LineLink :=
  (paragraphs.map paraLines).flatten

/-- The placement-event stream `output_pages` emits: page starts
(`start_page`), page ends (`eject_page`), column ejects (`eject_column`,
carrying the column index passed to it), page headers
(`draw_page_header_line_to_page`, carrying the composed markup), and line
placements (`draw_line_to_page`, carrying the column index and column
position passed to it together with the line). -/
inductive Event where
  | startPage (pageIdx : ℤ)
  | endPage
  | endColumn (columnIdx : ℤ)
  | pageHeader (pageIdx : ℤ) (content : String)
  | placeLine (columnIdx : ℤ) (columnPos : ℤ) (line : LineLink)
deriving DecidableEq, Repr

/-- The mutable flow state of `output_pages`: `column_idx`, `column_y_pos`
(in Pango units) and `page_idx`. -/
structure FlowState where
  columnIdx : ℤ
  columnYPos : ℤ
  pageIdx : ℤ
deriving DecidableEq, Repr

/-- `prev_line_link && prev_line_link->formfeed`. -/
def prevFormfeed : Option LineLink → Bool
  | none => false
  | some p => p.formfeed

/-- `pango_column_height` (paps.c line 549): column capacity in Pango units,
`column_height * pt_to_pixel * PANGO_SCALE` truncated to `int`. -/
def pangoColumnHeight (layout : PageLayout) : ℤ :=
  cTrunc ((layout.column_height : ℚ) * layout.pt_to_pixel * (PANGO_SCALE : ℚ))

/-- The column-advance test of `output_pages` (paps.c lines 563-565). -/
def advanceDecision (layout : PageLayout) (columnYPos h : ℤ)
    (prev : Option LineLink) : Bool :=
  decide (columnYPos + h ≥ pangoColumnHeight layout) || prevFormfeed prev

/-- The header markup built by `draw_page_header_line_to_page` (paps.c lines
881-889): date/time, file name and page number, each in the header font.
`date` is the `strftime`-formatted current time. -/
def composeHeaderMarkup (layout : PageLayout) (date : String) (page : ℤ) : String :=
  "<span font_desc=\"" ++ layout.header_font_desc ++ "\">" ++ date ++
    "</span>\n" ++
    "<span font_desc=\"" ++ layout.header_font_desc ++ "\">" ++
    layout.filename ++ "</span>\n" ++
    "<span font_desc=\"" ++ layout.header_font_desc ++ "\">Page " ++
    toString page ++ "</span>"

/-- One iteration of the `while` loop of `output_pages` (paps.c lines
557-596): decide whether to advance, emit the boundary events of the
advance, place the line, and update the state. -/
def flowStep (layout : PageLayout) (need_header : Bool) (date : String)
    (st : FlowState) (prev : Option LineLink) (ll : LineLink) :
    List Event × FlowState :=
  if advanceDecision layout st.columnYPos ll.logicalRect.height prev then
    if st.columnIdx + 1 = layout.num_columns then
      (Event.endPage :: Event.startPage (st.pageIdx + 1) ::
        ((if need_header then
            [Event.pageHeader (st.pageIdx + 1)
              (composeHeaderMarkup layout date (st.pageIdx + 1))]
          else []) ++
          [Event.placeLine 0 ll.logicalRect.height ll]),
       { columnIdx := 0, columnYPos := ll.logicalRect.height,
         pageIdx := st.pageIdx + 1 })
    else
      ([Event.endColumn (st.columnIdx + 1),
        Event.placeLine (st.columnIdx + 1) ll.logicalRect.height ll],
       { columnIdx := st.columnIdx + 1, columnYPos := ll.logicalRect.height,
         pageIdx := st.pageIdx })
  else
    ([Event.placeLine st.columnIdx (st.columnYPos + ll.logicalRect.height) ll],
     { columnIdx := st.columnIdx,
       columnYPos := st.columnYPos + ll.logicalRect.height,
       pageIdx := st.pageIdx })

/-- The `while` loop of `output_pages` followed by the final `eject_page`;
returns the emitted events and the final `page_idx`. -/
def outputAux (layout : PageLayout) (need_header : Bool) (date : String) :
    List LineLink → FlowState → Option LineLink → List Event × ℤ
  | [], st, _ => ([Event.endPage], st.pageIdx)
  | ll :: rest, st, prev =>
    let s := flowStep layout need_header date st prev ll
    let r := outputAux layout need_header date rest s.2 (some ll)
    (s.1 ++ r.1, r.2)

/-- `output_pages` (paps.c lines 539-599): start page 1 (with an optional
header), run the flow loop, eject the last page, and return the page count. -/
def output_pages (layout : PageLayout) (need_header : Bool) (date : String)
    (pango_lines : List LineLink) : List Event × ℤ :=
  let r := outputAux layout need_header date pango_lines
    { columnIdx := 0, columnYPos := 0, pageIdx := 1 } none
  ((Event.startPage 1 ::
      (if need_header then
        [Event.pageHeader 1 (composeHeaderMarkup layout date 1)]
      else [])) ++ r.1,
   r.2)

/-- The x position computed by `draw_line_to_page` (paps.c lines 827-849) for
a line of logical width `logical_width` placed in column `column_idx`:
left-to-right anchors at the column's left edge; right-to-left mirrors the
column order and right-aligns by the line's width in points. -/
def draw_line_x_pos (layout : PageLayout) (column_idx : ℤ)
    (logical_width : ℤ) : ℚ :=
  if layout.pango_dir_rtl then
    ((layout.left_margin +
        (layout.num_columns - 1 - column_idx) *
          (layout.column_width + layout.gutter_width) : ℤ) : ℚ) +
      ((layout.column_width : ℚ) -
        (logical_width : ℚ) / (layout.pt_to_pixel * (PANGO_SCALE : ℚ)))
  else
    ((layout.left_margin +
        column_idx * (layout.column_width + layout.gutter_width) : ℤ) : ℚ)

/-- The y position computed by `draw_line_to_page` (paps.c lines 823-826)
from the column position passed by `output_pages`: the column position is
converted from Pango units to pixels by C integer division by `PANGO_SCALE`,
then to points, and subtracted from the top of the body area. -/
def draw_line_y_pos (layout : PageLayout) (column_pos : ℤ) : ℚ :=
  (layout.page_height : ℚ) - (layout.top_margin : ℚ) -
    (layout.header_sep : ℚ) -
    ((column_pos.tdiv PANGO_SCALE : ℤ) : ℚ) * layout.pixel_to_pt

/-- The separator stroke drawn by `eject_column`. -/
structure SeparatorStroke where
  x : ℚ
  y_top : ℚ
  y_bot : ℚ
deriving DecidableEq, Repr

/-- `eject_column` (paps.c lines 766-797): draws nothing when separation
lines are disabled; otherwise mirrors the received column index in
right-to-left mode (`num_columns - column_idx`) and draws a vertical stroke
at the legacy gutter offset. -/
def eject_column (layout : PageLayout) (column_idx : ℤ) :
    Option SeparatorStroke :=
  if layout.do_separation_line = false then none
  else
    let ci := if layout.pango_dir_rtl then layout.num_columns - column_idx
      else column_idx
    let total_gutter : ℚ :=
      if ci = 1 then 1 * (layout.gutter_width : ℚ) / 2
      else ((ci : ℚ) + 1.5) * (layout.gutter_width : ℚ)
    some
      { x := ((layout.left_margin + layout.column_width * ci : ℤ) : ℚ) +
          total_gutter
        y_top := ((layout.page_height - layout.top_margin -
          layout.header_height - layout.header_sep.tdiv 2 : ℤ) : ℚ)
        y_bot := ((layout.bottom_margin - layout.footer_height : ℤ) : ℚ) }

/-- One line placement of the flow loop, instrumented with the state the
loop had when it placed the line: the page and column that received the
line, the cursor value before the line was added, and whether the line is
the first one placed in its column. -/
structure Placement where
  page_idx : ℤ
  column_idx : ℤ
  cursor_before : ℤ
  first_in_column : Bool
  line : LineLink
deriving DecidableEq, Repr

/-- The flow loop of `output_pages` again, recording one `Placement` per
line instead of the event stream; the state evolves through the same
`flowStep`.  `fresh` is true while no line has been placed in the current
column yet. -/
def flowPlacements (layout : PageLayout) (need_header : Bool) (date : String) :
    List LineLink → FlowState → Option LineLink → Bool → List Placement
  | [], _, _, _ => []
  | ll :: rest, st, prev, fresh =>
    let adv := advanceDecision layout st.columnYPos ll.logicalRect.height prev
    let st2 := (flowStep layout need_header date st prev ll).2
    { page_idx := st2.pageIdx
      column_idx := st2.columnIdx
      cursor_before := if adv then 0 else st.columnYPos
      first_in_column := fresh || adv
      line := ll } ::
      flowPlacements layout need_header date rest st2 (some ll) false

/-- The no-split-line invariant for one placement: the line fits the
remaining capacity, or it is the first line placed in its column. -/
def placementOkB (layout : PageLayout) (p : Placement) : Bool :=
  decide (p.cursor_before + p.line.logicalRect.height ≤
    pangoColumnHeight layout) || p.first_in_column

/-- The page index carried by a `startPage` event. -/
def startPageIdx : Event → Option ℤ
  | Event.startPage i => some i
  | _ => none

/-- Whether an event is an `endPage`. -/
def isEndPage : Event → Bool
  | Event.endPage => true
  | _ => false

/-- The line carried by a `placeLine` event. -/
def placeLineData : Event → Option LineLink
  | Event.placeLine _ _ l => some l
  | _ => none

/-- The column position carried by a `placeLine` event. -/
def placeLineOffset : Event → Option ℤ
  | Event.placeLine _ p _ => some p
  | _ => none

/-- The page indices of the `startPage` events of a stream, in order. -/
def startPageIndices (evs : List Event) : List ℤ :=
  evs.filterMap startPageIdx

/-- The number of `endPage` events of a stream. -/
def countEndPages (evs : List Event) : ℕ :=
  evs.countP isEndPage

/-- The lines carried by the `placeLine` events of a stream, in order. -/
def placedLines (evs : List Event) : List LineLink :=
  evs.filterMap placeLineData

/-- Run a stateful check over an event stream; `none` means the check
failed. -/
def scanEvents {σ : Type} (f : σ → Event → Option σ) :
    σ → List Event → Option σ
  | s, [] => some s
  | s, e :: r =>
    match f s e with
    | none => none
    | some s2 => scanEvents f s2 r

/-- Page-balance check: the state is whether a page is open.  A page may
only start while no page is open; a page may only end, and any other event
may only occur, while a page is open. -/
def pageStep (isOpen : Bool) (e : Event) : Option Bool :=
  match e with
  | Event.startPage _ => if isOpen then none else some true
  | Event.endPage => if isOpen then some false else none
  | _ => if isOpen then some true else none

/-- Column-advance counting check: the state counts `endColumn` events since
the last `startPage`; each one must keep the count at most `n - 1`. -/
def colStep (n : ℤ) (k : ℤ) (e : Event) : Option ℤ :=
  match e with
  | Event.startPage _ => some 0
  | Event.endColumn _ => if k + 1 ≤ n - 1 then some (k + 1) else none
  | _ => some k

/-- `[a, a+1, ..., a+n-1]`. -/
def intRangeFrom (a : ℤ) : ℕ → List ℤ
  | 0 => []
  | n + 1 => a :: intRangeFrom (a + 1) n

/-- The global column ordinal of a flow state: columns counted across pages
in document order. -/
def ordinal (layout : PageLayout) (st : FlowState) : ℤ :=
  (st.pageIdx - 1) * layout.num_columns + st.columnIdx

/-- A two-column left-to-right layout with a capacity of 10240 Pango units,
used to instantiate general theorems. -/
def sampleLayout : PageLayout :=
  { pt_to_pixel := 1
    pixel_to_pt := 1
    column_width := 100
    column_height := 10
    num_columns := 2
    gutter_width := 40
    top_margin := 36
    bottom_margin := 36
    left_margin := 36
    right_margin := 36
    page_width := 612
    page_height := 792
    header_ypos := 36
    header_sep := 0
    header_height := 0
    footer_height := 0
    do_duplex := true
    do_tumble := true
    do_landscape := false
    do_justify := false
    do_separation_line := true
    pango_dir_rtl := false
    filename := "stdin"
    header_font_desc := "Monospace Bold 12" }

/-- A three-column right-to-left variant of `sampleLayout`. -/
def rtlLayout : PageLayout :=
  { sampleLayout with num_columns := 3, pango_dir_rtl := true }

/-- A line of the given logical height, with no form feed. -/
def sampleLine (h : ℤ) : LineLink :=
  { inkRect := { width := 50, height := h }
    logicalRect := { width := 50, height := h }
    formfeed := false }

/-- A line tall enough to overflow `sampleLayout`'s columns. -/
def tallLine : LineLink := sampleLine 20000

/-- A line carrying a form feed. -/
def formfeedLine : LineLink :=
  { inkRect := { width := 50, height := 100 }
    logicalRect := { width := 50, height := 100 }
    formfeed := true }

/-- A two-line paragraph ending in a form feed. -/
def samplePara : ShapedPara :=
  { formfeed := true
    shapedLines :=
      [ { inkRect := { width := 50, height := 100 }
          logicalRect := { width := 50, height := 100 } },
        { inkRect := { width := 30, height := 100 }
          logicalRect := { width := 30, height := 100 } } ] }

/-- A configuration whose top margin exceeds the page height, with all other
options at their paps defaults and the libpaps scale set to one pixel per
point. -/
def badConfig : Config :=
  { paper_type := PaperType.a4
    do_landscape := false
    do_rtl := false
    do_justify := false
    do_draw_header := false
    num_columns := 1
    top_margin := 2000
    bottom_margin := 36
    left_margin := 36
    right_margin := 36
    filename := "stdin"
    pts_to_pango := 1024 }

/-- `sampleLayout` with one-character header font and file names, to keep
concrete header markup small. -/
def tinyLayout : PageLayout :=
  { sampleLayout with header_font_desc := "F", filename := "f" }

/-! ## Helper lemmas about the flow loop -/

theorem flowStep_eq_noAdv (layout : PageLayout) (need_header : Bool)
    (date : String) (st : FlowState) (prev : Option LineLink) (ll : LineLink)
    (h : advanceDecision layout st.columnYPos ll.logicalRect.height prev = false) :
    flowStep layout need_header date st prev ll =
      ([Event.placeLine st.columnIdx (st.columnYPos + ll.logicalRect.height) ll],
       { columnIdx := st.columnIdx,
         columnYPos := st.columnYPos + ll.logicalRect.height,
         pageIdx := st.pageIdx }) := by
  simp [flowStep, h]

theorem flowStep_eq_colAdv (layout : PageLayout) (need_header : Bool)
    (date : String) (st : FlowState) (prev : Option LineLink) (ll : LineLink)
    (h : advanceDecision layout st.columnYPos ll.logicalRect.height prev = true)
    (hcol : st.columnIdx + 1 ≠ layout.num_columns) :
    flowStep layout need_header date st prev ll =
      ([Event.endColumn (st.columnIdx + 1),
        Event.placeLine (st.columnIdx + 1) ll.logicalRect.height ll],
       { columnIdx := st.columnIdx + 1, columnYPos := ll.logicalRect.height,
         pageIdx := st.pageIdx }) := by
  simp [flowStep, h, hcol]

theorem flowStep_eq_pageAdv (layout : PageLayout) (need_header : Bool)
    (date : String) (st : FlowState) (prev : Option LineLink) (ll : LineLink)
    (h : advanceDecision layout st.columnYPos ll.logicalRect.height prev = true)
    (hcol : st.columnIdx + 1 = layout.num_columns) :
    flowStep layout need_header date st prev ll =
      (Event.endPage :: Event.startPage (st.pageIdx + 1) ::
        ((if need_header then
            [Event.pageHeader (st.pageIdx + 1)
              (composeHeaderMarkup layout date (st.pageIdx + 1))]
          else []) ++
          [Event.placeLine 0 ll.logicalRect.height ll]),
       { columnIdx := 0, columnYPos := ll.logicalRect.height,
         pageIdx := st.pageIdx + 1 }) := by
  simp [flowStep, h, hcol]

theorem outputAux_cons (layout : PageLayout) (need_header : Bool)
    (date : String) (ll : LineLink) (rest : List LineLink) (st : FlowState)
    (prev : Option LineLink) :
    outputAux layout need_header date (ll :: rest) st prev =
      ((flowStep layout need_header date st prev ll).1 ++
        (outputAux layout need_header date rest
          (flowStep layout need_header date st prev ll).2 (some ll)).1,
       (outputAux layout need_header date rest
         (flowStep layout need_header date st prev ll).2 (some ll)).2) := rfl

theorem output_pages_def (layout : PageLayout) (need_header : Bool)
    (date : String) (lines : List LineLink) :
    output_pages layout need_header date lines =
      ((Event.startPage 1 ::
          (if need_header then
            [Event.pageHeader 1 (composeHeaderMarkup layout date 1)]
          else [])) ++
        (outputAux layout need_header date lines
          { columnIdx := 0, columnYPos := 0, pageIdx := 1 } none).1,
       (outputAux layout need_header date lines
         { columnIdx := 0, columnYPos := 0, pageIdx := 1 } none).2) := rfl

theorem placedLines_append (a b : List Event) :
    placedLines (a ++ b) = placedLines a ++ placedLines b :=
  List.filterMap_append a b placeLineData

theorem startPageIndices_append (a b : List Event) :
    startPageIndices (a ++ b) = startPageIndices a ++ startPageIndices b :=
  List.filterMap_append a b startPageIdx

theorem countEndPages_append (a b : List Event) :
    countEndPages (a ++ b) = countEndPages a + countEndPages b :=
  List.countP_append isEndPage a b

theorem placedLines_flowStep (layout : PageLayout) (need_header : Bool)
    (date : String) (st : FlowState) (prev : Option LineLink) (ll : LineLink) :
    placedLines (flowStep layout need_header date st prev ll).1 = [ll] := by
  unfold flowStep
  split
  · split
    · cases need_header <;> simp [placedLines, placeLineData]
    · simp [placedLines, placeLineData]
  · simp [placedLines, placeLineData]

theorem placedLines_outputAux (layout : PageLayout) (need_header : Bool)
    (date : String) :
    ∀ (lines : List LineLink) (st : FlowState) (prev : Option LineLink),
      placedLines (outputAux layout need_header date lines st prev).1 = lines := by
  intro lines
  induction lines with
  | nil =>
    intro st prev
    simp [outputAux, placedLines, placeLineData]
  | cons ll rest ih =>
    intro st prev
    simp only [outputAux]
    rw [placedLines_append, placedLines_flowStep, ih]
    rfl

theorem placedLines_output_pages (layout : PageLayout) (need_header : Bool)
    (date : String) (lines : List LineLink) :
    placedLines (output_pages layout need_header date lines).1 = lines := by
  unfold output_pages
  rw [placedLines_append]
  rw [placedLines_outputAux]
  cases need_header <;> simp [placedLines, placeLineData]

theorem scanEvents_append {σ : Type} (f : σ → Event → Option σ) (s : σ)
    (a b : List Event) :
    scanEvents f s (a ++ b) =
      (scanEvents f s a).bind fun s2 => scanEvents f s2 b := by
  induction a generalizing s with
  | nil => simp [scanEvents]
  | cons e r ih =>
    simp only [List.cons_append, scanEvents]
    cases f s e <;> simp [ih]

theorem outputAux_date_irrelevant (layout : PageLayout) (d1 d2 : String) :
    ∀ (lines : List LineLink) (st : FlowState) (prev : Option LineLink),
      outputAux layout false d1 lines st prev =
        outputAux layout false d2 lines st prev := by
  intro lines
  induction lines with
  | nil => intro st prev; rfl
  | cons ll rest ih =>
    intro st prev
    have hstep : flowStep layout false d1 st prev ll =
        flowStep layout false d2 st prev ll := by
      unfold flowStep
      simp
    simp only [outputAux, hstep, ih]

theorem flowPlacements_spec (layout : PageLayout) (need_header : Bool)
    (date : String) :
    ∀ (lines : List LineLink) (st : FlowState) (prev : Option LineLink)
      (fresh : Bool),
      (flowPlacements layout need_header date lines st prev fresh).all
          (placementOkB layout) = true ∧
      (flowPlacements layout need_header date lines st prev fresh).map
          Placement.line = lines := by
  intro lines
  induction lines with
  | nil => intro st prev fresh; simp [flowPlacements]
  | cons ll rest ih =>
    intro st prev fresh
    obtain ⟨ih1, ih2⟩ :=
      ih (flowStep layout need_header date st prev ll).2 (some ll) false
    constructor
    · simp only [flowPlacements, List.all_cons, Bool.and_eq_true]
      refine ⟨?_, ih1⟩
      cases hadv :
          advanceDecision layout st.columnYPos ll.logicalRect.height prev with
      | true => simp [placementOkB, hadv]
      | false =>
        have hlt : st.columnYPos + ll.logicalRect.height <
            pangoColumnHeight layout := by
          simp only [advanceDecision, Bool.or_eq_false_iff,
            decide_eq_false_iff_not, not_le] at hadv
          exact hadv.1
        simp [placementOkB, hadv]
        left
        omega
    · simp only [flowPlacements, List.map_cons, ih2]

theorem flow_pages_outputAux (layout : PageLayout) (need_header : Bool)
    (date : String) :
    ∀ (lines : List LineLink) (st : FlowState) (prev : Option LineLink),
      ∃ n : ℕ,
        (outputAux layout need_header date lines st prev).2 =
          st.pageIdx + n ∧
        startPageIndices (outputAux layout need_header date lines st prev).1 =
          intRangeFrom (st.pageIdx + 1) n ∧
        countEndPages (outputAux layout need_header date lines st prev).1 =
          n + 1 := by
  intro lines
  induction lines with
  | nil =>
    intro st prev
    refine ⟨0, by simp [outputAux], ?_, ?_⟩
    · simp [outputAux, startPageIndices, startPageIdx, intRangeFrom]
    · simp [outputAux, countEndPages, isEndPage]
  | cons ll rest ih =>
    intro st prev
    obtain ⟨n, hfp, hidx, hcnt⟩ :=
      ih (flowStep layout need_header date st prev ll).2 (some ll)
    cases hadv : advanceDecision layout st.columnYPos ll.logicalRect.height
        prev with
    | false =>
      have hstep := flowStep_eq_noAdv layout need_header date st prev ll hadv
      have hpg : (flowStep layout need_header date st prev ll).2.pageIdx =
          st.pageIdx := by rw [hstep]
      refine ⟨n, ?_, ?_, ?_⟩
      · rw [outputAux_cons, hfp, hpg]
      · rw [outputAux_cons]
        rw [startPageIndices_append, hidx, hpg, hstep]
        simp [startPageIndices, startPageIdx]
      · rw [outputAux_cons, countEndPages_append, hcnt, hstep]
        simp [countEndPages, isEndPage]
    | true =>
      by_cases hcol : st.columnIdx + 1 = layout.num_columns
      · have hstep :=
          flowStep_eq_pageAdv layout need_header date st prev ll hadv hcol
        have hpg : (flowStep layout need_header date st prev ll).2.pageIdx =
            st.pageIdx + 1 := by rw [hstep]
        refine ⟨n + 1, ?_, ?_, ?_⟩
        · rw [outputAux_cons, hfp, hpg]
          push_cast
          ring
        · rw [outputAux_cons, startPageIndices_append, hidx, hpg, hstep]
          have hsp : startPageIndices
              (Event.endPage :: Event.startPage (st.pageIdx + 1) ::
                ((if need_header then
                    [Event.pageHeader (st.pageIdx + 1)
                      (composeHeaderMarkup layout date (st.pageIdx + 1))]
                  else []) ++
                  [Event.placeLine 0 ll.logicalRect.height ll])) =
              [st.pageIdx + 1] := by
            cases need_header <;> simp [startPageIndices, startPageIdx]
          rw [hsp]
          show (st.pageIdx + 1) :: intRangeFrom (st.pageIdx + 1 + 1) n =
            intRangeFrom (st.pageIdx + 1) (n + 1)
          rfl
        · rw [outputAux_cons, countEndPages_append, hcnt, hstep]
          have hce : countEndPages
              (Event.endPage :: Event.startPage (st.pageIdx + 1) ::
                ((if need_header then
                    [Event.pageHeader (st.pageIdx + 1)
                      (composeHeaderMarkup layout date (st.pageIdx + 1))]
                  else []) ++
                  [Event.placeLine 0 ll.logicalRect.height ll])) = 1 := by
            cases need_header <;> simp [countEndPages, isEndPage]
          rw [hce]
          omega
      · have hstep :=
          flowStep_eq_colAdv layout need_header date st prev ll hadv hcol
        have hpg : (flowStep layout need_header date st prev ll).2.pageIdx =
            st.pageIdx := by rw [hstep]
        refine ⟨n, ?_, ?_, ?_⟩
        · rw [outputAux_cons, hfp, hpg]
        · rw [outputAux_cons, startPageIndices_append, hidx, hpg, hstep]
          simp [startPageIndices, startPageIdx]
        · rw [outputAux_cons, countEndPages_append, hcnt, hstep]
          simp [countEndPages, isEndPage]

theorem pageScan_flowStep (layout : PageLayout) (need_header : Bool)
    (date : String) (st : FlowState) (prev : Option LineLink) (ll : LineLink) :
    scanEvents pageStep true (flowStep layout need_header date st prev ll).1 =
      some true := by
  cases hadv : advanceDecision layout st.columnYPos ll.logicalRect.height
      prev with
  | false =>
    rw [flowStep_eq_noAdv layout need_header date st prev ll hadv]
    simp [scanEvents, pageStep]
  | true =>
    by_cases hcol : st.columnIdx + 1 = layout.num_columns
    · rw [flowStep_eq_pageAdv layout need_header date st prev ll hadv hcol]
      cases need_header <;> simp [scanEvents, pageStep]
    · rw [flowStep_eq_colAdv layout need_header date st prev ll hadv hcol]
      simp [scanEvents, pageStep]

theorem pageScan_outputAux (layout : PageLayout) (need_header : Bool)
    (date : String) :
    ∀ (lines : List LineLink) (st : FlowState) (prev : Option LineLink),
      scanEvents pageStep true
        (outputAux layout need_header date lines st prev).1 = some false := by
  intro lines
  induction lines with
  | nil => intro st prev; simp [outputAux, scanEvents, pageStep]
  | cons ll rest ih =>
    intro st prev
    rw [outputAux_cons, scanEvents_append,
      pageScan_flowStep layout need_header date st prev ll]
    simpa using ih (flowStep layout need_header date st prev ll).2 (some ll)

theorem colScan_flowStep (layout : PageLayout) (need_header : Bool)
    (date : String) (st : FlowState) (prev : Option LineLink) (ll : LineLink)
    (h1 : 1 ≤ layout.num_columns) (hc0 : 0 ≤ st.columnIdx)
    (hc : st.columnIdx < layout.num_columns) :
    scanEvents (colStep layout.num_columns) st.columnIdx
        (flowStep layout need_header date st prev ll).1 =
      some (flowStep layout need_header date st prev ll).2.columnIdx ∧
    0 ≤ (flowStep layout need_header date st prev ll).2.columnIdx ∧
    (flowStep layout need_header date st prev ll).2.columnIdx <
      layout.num_columns := by
  cases hadv : advanceDecision layout st.columnYPos ll.logicalRect.height
      prev with
  | false =>
    rw [flowStep_eq_noAdv layout need_header date st prev ll hadv]
    exact ⟨by simp [scanEvents, colStep], hc0, hc⟩
  | true =>
    by_cases hcol : st.columnIdx + 1 = layout.num_columns
    · rw [flowStep_eq_pageAdv layout need_header date st prev ll hadv hcol]
      refine ⟨?_, ?_, ?_⟩
      · cases need_header <;> simp [scanEvents, colStep]
      · simp
      · simp
        omega
    · rw [flowStep_eq_colAdv layout need_header date st prev ll hadv hcol]
      have hle : st.columnIdx + 1 ≤ layout.num_columns - 1 := by omega
      refine ⟨?_, ?_, ?_⟩
      · simp [scanEvents, colStep, hle]
      · simp
        omega
      · simp
        omega

theorem colScan_outputAux (layout : PageLayout) (need_header : Bool)
    (date : String) :
    ∀ (lines : List LineLink) (st : FlowState) (prev : Option LineLink),
      1 ≤ layout.num_columns → 0 ≤ st.columnIdx →
      st.columnIdx < layout.num_columns →
      (scanEvents (colStep layout.num_columns) st.columnIdx
        (outputAux layout need_header date lines st prev).1).isSome = true := by
  intro lines
  induction lines with
  | nil =>
    intro st prev h1 hc0 hc
    simp [outputAux, scanEvents, colStep]
  | cons ll rest ih =>
    intro st prev h1 hc0 hc
    obtain ⟨hscan, hge, hlt⟩ :=
      colScan_flowStep layout need_header date st prev ll h1 hc0 hc
    rw [outputAux_cons, scanEvents_append, hscan]
    simpa using ih (flowStep layout need_header date st prev ll).2 (some ll)
      h1 hge hlt

/-! ## Claim theorems -/

/-- Claim C9: the flow engine is total and never skips a line: every line of
the input appears as exactly one placement, in order (so a line taller than
the column capacity is still placed), and every placement satisfies
`cursor_before + height ≤ capacity` or is the first line placed in its
column. -/
theorem c9_total_placement (layout : PageLayout) (need_header : Bool)
    (date : String) (lines : List LineLink) :
    (flowPlacements layout need_header date lines
        { columnIdx := 0, columnYPos := 0, pageIdx := 1 } none true).all
        (placementOkB layout) = true ∧
    (flowPlacements layout need_header date lines
        { columnIdx := 0, columnYPos := 0, pageIdx := 1 } none true).map
        Placement.line = lines ∧
    placedLines (output_pages layout need_header date lines).1 = lines := by
  obtain ⟨h1, h2⟩ := flowPlacements_spec layout need_header date lines
    { columnIdx := 0, columnYPos := 0, pageIdx := 1 } none true
  exact ⟨h1, h2, placedLines_output_pages layout need_header date lines⟩

/-- Claim C10: `main` sets `do_separation_line` unconditionally to TRUE (no
option can change it), so the disabled early-return branch of `eject_column`
is unreachable: every within-page column eject draws its separator stroke. -/
theorem c10_separation_line_always_on :
    (∀ c : Config, (resolveGeometry c).do_separation_line = true) ∧
    (∀ (c : Config) (k : ℤ),
      (eject_column (resolveGeometry c) k).isSome = true) := by
  constructor
  · intro c; rfl
  · intro c k
    have h : (resolveGeometry c).do_separation_line = true := rfl
    simp [eject_column, h]

/-- Claim C1: before placing a line, the flow advances by exactly one column
position (counting columns across pages in document order) precisely when
`cursor + line_height ≥ column_height * pt_to_pixel * PANGO_SCALE` or the
previously placed line carried a form feed, and otherwise stays put; when
both conditions hold the advance is still a single one, never two. -/
theorem c1_advance_iff_single_step (layout : PageLayout) (need_header : Bool)
    (date : String) (st : FlowState) (prev : Option LineLink) (ll : LineLink) :
    (advanceDecision layout st.columnYPos ll.logicalRect.height prev = true ↔
      (st.columnYPos + ll.logicalRect.height ≥
          cTrunc ((layout.column_height : ℚ) * layout.pt_to_pixel *
            (PANGO_SCALE : ℚ)) ∨
        prevFormfeed prev = true)) ∧
    ordinal layout (flowStep layout need_header date st prev ll).2 =
      ordinal layout st +
        (if advanceDecision layout st.columnYPos ll.logicalRect.height prev
          then 1 else 0) := by
  constructor
  · simp [advanceDecision, pangoColumnHeight, Bool.or_eq_true,
      decide_eq_true_iff]
  · cases hadv : advanceDecision layout st.columnYPos ll.logicalRect.height
        prev with
    | false =>
      rw [flowStep_eq_noAdv layout need_header date st prev ll hadv]
      simp [ordinal]
    | true =>
      by_cases hcol : st.columnIdx + 1 = layout.num_columns
      · rw [flowStep_eq_pageAdv layout need_header date st prev ll hadv hcol]
        simp only [ordinal, if_true]
        rw [← hcol]
        ring
      · rw [flowStep_eq_colAdv layout need_header date st prev ll hadv hcol]
        simp only [ordinal, if_true]
        ring

/-- Claim C7: each loop step emits exactly one placement, and the column
position it carries is the cursor value after including the current line
(`cursor_before + height`, i.e. the new cursor); `draw_line_to_page` maps
that position to the page coordinate
`page_height - top_margin - header_sep - position_in_points`, converting the
Pango-unit position to points (integer division by `PANGO_SCALE`, then the
`pixel_to_pt` scale). -/
theorem c7_y_offset_cumulative (layout : PageLayout) (need_header : Bool)
    (date : String) (st : FlowState) (prev : Option LineLink) (ll : LineLink)
    (column_pos : ℤ) :
    ((flowStep layout need_header date st prev ll).1.filterMap
        placeLineOffset =
      [(flowStep layout need_header date st prev ll).2.columnYPos]) ∧
    ((flowStep layout need_header date st prev ll).2.columnYPos =
      (if advanceDecision layout st.columnYPos ll.logicalRect.height prev
        then 0 else st.columnYPos) + ll.logicalRect.height) ∧
    draw_line_y_pos layout column_pos =
      (layout.page_height : ℚ) - (layout.top_margin : ℚ) -
        (layout.header_sep : ℚ) -
        ((column_pos.tdiv PANGO_SCALE : ℤ) : ℚ) * layout.pixel_to_pt := by
  refine ⟨?_, ?_, rfl⟩
  · cases hadv : advanceDecision layout st.columnYPos ll.logicalRect.height
        prev with
    | false =>
      rw [flowStep_eq_noAdv layout need_header date st prev ll hadv]
      simp [placeLineOffset]
    | true =>
      by_cases hcol : st.columnIdx + 1 = layout.num_columns
      · rw [flowStep_eq_pageAdv layout need_header date st prev ll hadv hcol]
        cases need_header <;> simp [placeLineOffset]
      · rw [flowStep_eq_colAdv layout need_header date st prev ll hadv hcol]
        simp [placeLineOffset]
  · cases hadv : advanceDecision layout st.columnYPos ll.logicalRect.height
        prev with
    | false =>
      rw [flowStep_eq_noAdv layout need_header date st prev ll hadv]
      simp
    | true =>
      by_cases hcol : st.columnIdx + 1 = layout.num_columns
      · rw [flowStep_eq_pageAdv layout need_header date st prev ll hadv hcol]
        simp
      · rw [flowStep_eq_colAdv layout need_header date st prev ll hadv hcol]
        simp

/-- Claim C6: `draw_line_to_page` anchors a left-to-right line at
`left_margin + column_idx * (column_width + gutter_width)`; a right-to-left
line at the mirrored column
`left_margin + (num_columns - 1 - column_idx) * (column_width + gutter_width)`
plus the right-alignment adjustment `column_width - width_in_points`; and in
right-to-left mode column index 0 receives the largest (rightmost) anchor of
all columns. -/
theorem c6_rtl_mirroring (layout : PageLayout) (column_idx logical_width : ℤ) :
    (layout.pango_dir_rtl = true →
      draw_line_x_pos layout column_idx logical_width =
        (layout.left_margin : ℚ) +
          ((layout.num_columns - 1 - column_idx : ℤ) : ℚ) *
            ((layout.column_width : ℚ) + (layout.gutter_width : ℚ)) +
          ((layout.column_width : ℚ) -
            (logical_width : ℚ) /
              (layout.pt_to_pixel * (PANGO_SCALE : ℚ)))) ∧
    (layout.pango_dir_rtl = false →
      draw_line_x_pos layout column_idx logical_width =
        (layout.left_margin : ℚ) +
          (column_idx : ℚ) *
            ((layout.column_width : ℚ) + (layout.gutter_width : ℚ))) ∧
    (layout.pango_dir_rtl = true →
      0 ≤ layout.column_width + layout.gutter_width →
      0 ≤ column_idx →
      draw_line_x_pos layout column_idx logical_width ≤
        draw_line_x_pos layout 0 logical_width) := by
  refine ⟨?_, ?_, ?_⟩
  · intro h
    simp only [draw_line_x_pos, h, if_true]
    push_cast
    ring
  · intro h
    simp only [draw_line_x_pos, h, Bool.false_eq_true, if_false]
    push_cast
    ring
  · intro h hg hc
    have key : (layout.num_columns - 1 - column_idx) *
        (layout.column_width + layout.gutter_width) ≤
        (layout.num_columns - 1 - 0) *
          (layout.column_width + layout.gutter_width) :=
      mul_le_mul_of_nonneg_right (by omega) hg
    have keyq : (((layout.num_columns - 1 - column_idx) *
        (layout.column_width + layout.gutter_width) : ℤ) : ℚ) ≤
        (((layout.num_columns - 1 - 0) *
          (layout.column_width + layout.gutter_width) : ℤ) : ℚ) :=
      Int.cast_le.mpr key
    simp only [draw_line_x_pos, h, if_true]
    push_cast
    push_cast at keyq
    linarith

/-- Claim C6 witness: the rightmost-column inequality at a concrete
right-to-left three-column layout. -/
theorem c6_rtl_mirroring_witness :
    rtlLayout.pango_dir_rtl = true ∧
    (0 : ℤ) ≤ rtlLayout.column_width + rtlLayout.gutter_width ∧
    (0 : ℤ) ≤ 2 ∧
    draw_line_x_pos rtlLayout 2 512 ≤ draw_line_x_pos rtlLayout 0 512 :=
  ⟨rfl, by decide, by decide,
    (c6_rtl_mirroring rtlLayout 2 512).2.2 rfl (by decide) (by decide)⟩

/-- Claim C2 (amended part is not needed; the claim holds): the splitter
attaches the form-feed flag exactly to the last line of a form-feed
paragraph; the flow's advance decision is forced by the previous line's
form feed regardless of remaining capacity; and the flow state after a step
does not depend on the current line's own form-feed flag, so a form feed can
only cause an advance after its line is placed. -/
theorem c2_formfeed_deferred :
    (∀ (para : ShapedPara) (i : ℕ) (h : i < (paraLines para).length),
      (((paraLines para).get ⟨i, h⟩).formfeed = true ↔
        (para.formfeed = true ∧ i = para.shapedLines.length - 1))) ∧
    (∀ (layout : PageLayout) (columnYPos h : ℤ) (p : LineLink),
      p.formfeed = true →
      advanceDecision layout columnYPos h (some p) = true) ∧
    (∀ (layout : PageLayout) (need_header : Bool) (date : String)
      (st : FlowState) (prev : Option LineLink) (ll : LineLink) (b : Bool),
      (flowStep layout need_header date st prev
          { ll with formfeed := b }).2 =
        (flowStep layout need_header date st prev ll).2) := by
  refine ⟨?_, ?_, ?_⟩
  · intro para i h
    simp only [paraLines, List.get_eq_getElem, List.getElem_map,
      List.getElem_enum, Bool.and_eq_true, decide_eq_true_eq]
  · intro layout columnYPos h p hp
    simp [advanceDecision, prevFormfeed, hp]
  · intro layout need_header date st prev ll b
    cases hadv : advanceDecision layout st.columnYPos ll.logicalRect.height
        prev with
    | false =>
      rw [flowStep_eq_noAdv layout need_header date st prev ll hadv,
        flowStep_eq_noAdv layout need_header date st prev
          { ll with formfeed := b } hadv]
    | true =>
      by_cases hcol : st.columnIdx + 1 = layout.num_columns
      · rw [flowStep_eq_pageAdv layout need_header date st prev ll hadv hcol,
          flowStep_eq_pageAdv layout need_header date st prev
            { ll with formfeed := b } hadv hcol]
      · rw [flowStep_eq_colAdv layout need_header date st prev ll hadv hcol,
          flowStep_eq_colAdv layout need_header date st prev
            { ll with formfeed := b } hadv hcol]

/-- Claim C2 witness: the flag sits on the second (last) line of a concrete
two-line form-feed paragraph, and a previous form-feed line forces the
advance at a concrete state with plenty of remaining capacity. -/
theorem c2_formfeed_deferred_witness :
    (((paraLines samplePara).get ⟨1, by decide⟩).formfeed = true ↔
      (samplePara.formfeed = true ∧ 1 = samplePara.shapedLines.length - 1)) ∧
    advanceDecision sampleLayout 0 5 (some formfeedLine) = true :=
  ⟨c2_formfeed_deferred.1 samplePara 1 (by decide),
    c2_formfeed_deferred.2.1 sampleLayout 0 5 formfeedLine rfl⟩

/-- Claim C5 counterexample: with header drawing enabled, two runs of the
flow over identical `(lines, layout, draw_header)` but at different
wall-clock times (the header embeds the `strftime` date) emit different
event streams, so run-to-run byte-identity fails as stated. -/
theorem c5_determinism_counterexample :
    output_pages tinyLayout true "Mon 01 Jan" [] ≠
      output_pages tinyLayout true "Tue 02 Jan" [] := by
  decide

/-- Claim C5 as amended: the emitted stream is a pure function of
`(lines, layout, draw_header)` and the observed clock time; when
`draw_header` is false the clock is not consulted at all, so any two runs
agree byte for byte. -/
theorem c5_amended_determinism (layout : PageLayout) (lines : List LineLink)
    (d1 d2 : String) :
    output_pages layout false d1 lines = output_pages layout false d2 lines := by
  unfold output_pages
  rw [outputAux_date_irrelevant layout d1 d2 lines
    { columnIdx := 0, columnYPos := 0, pageIdx := 1 } none]
  simp

/-- Claim C3: for every input and every layout with at least one column, the
event stream is balanced and monotone: the page count returned is at least
one; the `startPage` indices are exactly `1, 2, ..., page_count` in order;
the number of `endPage` events equals the page count; pages strictly
alternate (no `startPage` while a page is open, no stray `endPage`, no event
outside a page, and the stream ends with the last page closed); and within
each page the number of column ejects never exceeds `num_columns - 1`. -/
theorem c3_balanced_stream (layout : PageLayout) (need_header : Bool)
    (date : String) (lines : List LineLink)
    (h1 : 1 ≤ layout.num_columns) :
    1 ≤ (output_pages layout need_header date lines).2 ∧
    startPageIndices (output_pages layout need_header date lines).1 =
      intRangeFrom 1 (output_pages layout need_header date lines).2.toNat ∧
    (countEndPages (output_pages layout need_header date lines).1 : ℤ) =
      (output_pages layout need_header date lines).2 ∧
    scanEvents pageStep false (output_pages layout need_header date lines).1 =
      some false ∧
    (scanEvents (colStep layout.num_columns) 0
      (output_pages layout need_header date lines).1).isSome = true := by
  obtain ⟨n, hfp, hidx, hcnt⟩ := flow_pages_outputAux layout need_header date
    lines { columnIdx := 0, columnYPos := 0, pageIdx := 1 } none
  rw [show ({ columnIdx := 0, columnYPos := 0, pageIdx := 1 } :
    FlowState).pageIdx = 1 from rfl] at hfp hidx
  have hhead : startPageIndices
      (Event.startPage 1 ::
        (if need_header then
          [Event.pageHeader 1 (composeHeaderMarkup layout date 1)]
        else [])) = [1] := by
    cases need_header <;> simp [startPageIndices, startPageIdx]
  have hheadc : countEndPages
      (Event.startPage 1 ::
        (if need_header then
          [Event.pageHeader 1 (composeHeaderMarkup layout date 1)]
        else [])) = 0 := by
    cases need_header <;> simp [countEndPages, isEndPage]
  refine ⟨?_, ?_, ?_, ?_, ?_⟩
  · rw [output_pages_def]
    dsimp only
    rw [hfp]
    omega
  · rw [output_pages_def]
    dsimp only
    rw [startPageIndices_append, hhead, hidx]
    have htn : ((outputAux layout need_header date lines
        { columnIdx := 0, columnYPos := 0, pageIdx := 1 } none).2).toNat =
        n + 1 := by
      rw [hfp]
      omega
    rw [htn]
    show (1 : ℤ) :: intRangeFrom (1 + 1) n = intRangeFrom 1 (n + 1)
    rfl
  · rw [output_pages_def]
    dsimp only
    rw [countEndPages_append, hheadc, hcnt, hfp]
    push_cast
    ring
  · rw [output_pages_def]
    rw [scanEvents_append]
    have hh : scanEvents pageStep false
        (Event.startPage 1 ::
          (if need_header then
            [Event.pageHeader 1 (composeHeaderMarkup layout date 1)]
          else [])) = some true := by
      cases need_header <;> simp [scanEvents, pageStep]
    rw [hh]
    simpa using pageScan_outputAux layout need_header date lines
      { columnIdx := 0, columnYPos := 0, pageIdx := 1 } none
  · rw [output_pages_def]
    rw [scanEvents_append]
    have hh : scanEvents (colStep layout.num_columns) 0
        (Event.startPage 1 ::
          (if need_header then
            [Event.pageHeader 1 (composeHeaderMarkup layout date 1)]
          else [])) = some 0 := by
      cases need_header <;> simp [scanEvents, colStep]
    rw [hh]
    simpa using colScan_outputAux layout need_header date lines
      { columnIdx := 0, columnYPos := 0, pageIdx := 1 } none h1 (le_refl 0)
      (by dsimp only; omega)

/-- Claim C3 witness: the balanced-stream properties at a concrete
two-column layout with empty input (one page is still opened and closed). -/
theorem c3_balanced_stream_witness :
    1 ≤ (output_pages sampleLayout false "" []).2 ∧
    startPageIndices (output_pages sampleLayout false "" []).1 =
      intRangeFrom 1 (output_pages sampleLayout false "" []).2.toNat ∧
    (countEndPages (output_pages sampleLayout false "" []).1 : ℤ) =
      (output_pages sampleLayout false "" []).2 ∧
    scanEvents pageStep false (output_pages sampleLayout false "" []).1 =
      some false ∧
    (scanEvents (colStep sampleLayout.num_columns) 0
      (output_pages sampleLayout false "" []).1).isSome = true :=
  c3_balanced_stream sampleLayout false "" [] (by decide)

/-- Claim C4 counterexample: with a top margin exceeding the page height the
computed column height is negative, yet geometry resolution reports no error
and the flow still produces a placement event for the input line — so "no
placement events are produced" fails for such a configuration. -/
theorem c4_config_error_counterexample :
    (resolveGeometry badConfig).column_height < 0 ∧
    placedLines (output_pages (resolveGeometry badConfig) false ""
        [sampleLine 10]).1 = [sampleLine 10] ∧
    placedLines (output_pages (resolveGeometry badConfig) false ""
        [sampleLine 10]).1 ≠ [] := by
  refine ⟨?_, placedLines_output_pages _ _ _ _, ?_⟩
  · norm_num [resolveGeometry, badConfig, cTrunc, paperSizes]
  · rw [placedLines_output_pages]
    simp

/-- Claim C4 as amended: the only configuration check is the paper-size name
(an unrecognised or empty `--paper` value fails option parsing); margins and
column count are never validated — for every configuration, including those
with non-positive computed column width or height or fewer than one column,
geometry resolution returns a layout and the flow engine places every input
line. -/
theorem c4_amended_no_geometry_validation :
    (∀ value : String, (parsePaper value).isSome = true ↔
      (value ≠ "" ∧
        (gAsciiCaseEq value "legal" = true ∨
          gAsciiCaseEq value "letter" = true ∨
          gAsciiCaseEq value "a4" = true))) ∧
    (∀ (c : Config) (need_header : Bool) (date : String)
      (lines : List LineLink),
      placedLines (output_pages (resolveGeometry c) need_header date
        lines).1 = lines) := by
  constructor
  · intro value
    unfold parsePaper
    split_ifs with h1 h2 h3 h4
    · simp [h1]
    · simp [h1, h2]
    · simp [h1, h3]
    · simp [h1, h4]
    · simp [h1, h2, h3, h4]
  · intro c need_header date lines
    exact placedLines_output_pages _ _ _ _

/-- Claim C8 counterexample: a within-page column advance that leaves column
0 invokes the column eject with index 1 — the index of the new column — and
not with the index 0 of the column just left, contradicting "invoked with
the index of the old column". -/
theorem c8_old_index_counterexample :
    (flowStep sampleLayout false ""
        { columnIdx := 0, columnYPos := 0, pageIdx := 1 } none tallLine).1 =
      [Event.endColumn 1, Event.placeLine 1 20000 tallLine] ∧
    Event.endColumn 0 ∉
      (flowStep sampleLayout false ""
        { columnIdx := 0, columnYPos := 0, pageIdx := 1 } none tallLine).1 := by
  have hcap : pangoColumnHeight sampleLayout = 10240 := by
    norm_num [pangoColumnHeight, sampleLayout, cTrunc, PANGO_SCALE]
  have hadv : advanceDecision sampleLayout 0 tallLine.logicalRect.height
      none = true := by
    rw [show tallLine.logicalRect.height = 20000 from rfl]
    simp [advanceDecision, prevFormfeed, hcap]
  have hfirst := flowStep_eq_colAdv sampleLayout false ""
    { columnIdx := 0, columnYPos := 0, pageIdx := 1 } none tallLine hadv
    (by decide)
  constructor
  · rw [hfirst]
    decide
  · rw [hfirst]
    decide

/-- Claim C8 as amended: on a within-page column advance the eject routine
is invoked with the index of the new column, `old + 1` (not the old index);
inside it, the drawing is skipped exactly when separation lines are
disabled, and in right-to-left mode the index used for the divider position
is mirrored as `num_columns - received_index`. -/
theorem c8_amended_new_column_index (layout : PageLayout) (need_header : Bool)
    (date : String) (st : FlowState) (prev : Option LineLink) (ll : LineLink)
    (hadv : advanceDecision layout st.columnYPos ll.logicalRect.height prev =
      true)
    (hcol : st.columnIdx + 1 ≠ layout.num_columns) :
    ((flowStep layout need_header date st prev ll).1 =
      [Event.endColumn (st.columnIdx + 1),
       Event.placeLine (st.columnIdx + 1) ll.logicalRect.height ll]) ∧
    (∀ (L : PageLayout) (k : ℤ),
      eject_column L k = none ↔ L.do_separation_line = false) ∧
    (∀ (L : PageLayout) (k : ℤ),
      L.do_separation_line = true → L.pango_dir_rtl = true →
      ∃ s : SeparatorStroke, eject_column L k = some s ∧
        s.x = ((L.left_margin +
            L.column_width * (L.num_columns - k) : ℤ) : ℚ) +
          (if L.num_columns - k = 1 then 1 * (L.gutter_width : ℚ) / 2
            else (((L.num_columns - k : ℤ) : ℚ) + 1.5) *
              (L.gutter_width : ℚ))) := by
  refine ⟨?_, ?_, ?_⟩
  · rw [flowStep_eq_colAdv layout need_header date st prev ll hadv hcol]
  · intro L k
    unfold eject_column
    by_cases hs : L.do_separation_line = false
    · simp [hs]
    · simp [hs]
  · intro L k hsep hrtl
    have hx : eject_column L k = some
        { x := ((L.left_margin +
              L.column_width * (L.num_columns - k) : ℤ) : ℚ) +
            (if L.num_columns - k = 1 then 1 * (L.gutter_width : ℚ) / 2
              else (((L.num_columns - k : ℤ) : ℚ) + 1.5) *
                (L.gutter_width : ℚ))
          y_top := ((L.page_height - L.top_margin - L.header_height -
            L.header_sep.tdiv 2 : ℤ) : ℚ)
          y_bot := ((L.bottom_margin - L.footer_height : ℤ) : ℚ) } := by
      simp [eject_column, hsep, hrtl]
    exact ⟨_, hx, rfl⟩

/-- Claim C8 witness (for the amended statement): the concrete overflow
advance of the counterexample, plus the eject behaviour of a concrete
right-to-left layout. -/
theorem c8_amended_new_column_index_witness :
    ((flowStep sampleLayout false ""
        { columnIdx := 0, columnYPos := 0, pageIdx := 1 } none tallLine).1 =
      [Event.endColumn ((0 : ℤ) + 1),
       Event.placeLine ((0 : ℤ) + 1) tallLine.logicalRect.height tallLine]) ∧
    (∀ (L : PageLayout) (k : ℤ),
      eject_column L k = none ↔ L.do_separation_line = false) ∧
    (∀ (L : PageLayout) (k : ℤ),
      L.do_separation_line = true → L.pango_dir_rtl = true →
      ∃ s : SeparatorStroke, eject_column L k = some s ∧
        s.x = ((L.left_margin +
            L.column_width * (L.num_columns - k) : ℤ) : ℚ) +
          (if L.num_columns - k = 1 then 1 * (L.gutter_width : ℚ) / 2
            else (((L.num_columns - k : ℤ) : ℚ) + 1.5) *
              (L.gutter_width : ℚ))) :=
  c8_amended_new_column_index sampleLayout false ""
    { columnIdx := 0, columnYPos := 0, pageIdx := 1 } none tallLine
    (by
      have hcap : pangoColumnHeight sampleLayout = 10240 := by
        norm_num [pangoColumnHeight, sampleLayout, cTrunc, PANGO_SCALE]
      rw [show tallLine.logicalRect.height = 20000 from rfl]
      simp [advanceDecision, prevFormfeed, hcap])
    (by decide)

end Paps
